import Mathlib

/-!
Shallow embedding of goapm's driver-level SQL instrumentation wrapper
(`apm/sql_driver_wrapper.go`) together with the concrete MySQL hook set,
driver registration and helper functions that surround it
(`apm.NewMySQL` / `wrap` / `truncate` / `parseTable` / `apm/gorm.go`).

Modelling conventions:
* Go `(T, error)` return pairs are embedded as `Option T × Option Err` when the
  code can return a partial result next to an error (exec/query), and as
  `Except Err T` when the code checks the error first and discards the result
  on failure (prepare, begin-tx).
* Go interface-capability checks (`switch c := conn.Conn.(type)`) are embedded
  by giving the native object an `Option`-valued field per optional interface:
  `none` means the native object does not implement that interface.
* Hook and native-call invocations are additionally recorded in an event
  trace (`List Event`), one event per call site the wrapper executes, in
  program order; this makes "which hooks fired, in which order" provable.
* Wall-clock time is a `Nat` of nanoseconds passed in explicitly
  (`time.Now()` becomes a `now` argument); `Duration.Milliseconds()` is
  division by 1000000.
* Go strings in the byte-truncation function are embedded as `List UInt8`
  (Go `len`/slicing are byte-based); elsewhere query texts are `String`.
-/

/-- A Go value stored in a driver argument (`driver.NamedValue.Value`, type `any`). -/
inductive GoVal where
  | str (s : String)
  | int (n : Int)
  | null
deriving DecidableEq, Repr

/-- Embedding of `driver.NamedValue`: optional parameter name, ordinal, value. -/
structure NamedValue where
  name : Option String
  ordinal : Nat
  value : GoVal
deriving DecidableEq, Repr

/-- Go errors as they occur in this code base: the `driver.ErrSkip` sentinel,
the capability errors the wrapper constructs with `fmt.Errorf`
(the `%T` suffix naming the concrete Go type is omitted), and all other
(native/hook) errors identified by their message. The code never wraps errors,
so `errors.Is` is plain equality here. -/
inductive Err where
  | skip
  | capability (msg : String)
  | other (msg : String)
deriving DecidableEq, Repr

/-- Embedding of `errors.Is` for the flat error values above. -/
def errorsIs (err target : Err) : Bool := err == target

/-- Embedding of `context.Context` restricted to the values this code threads
through it: the `ctxBeginTime` entry and the active span (by id). -/
structure Context where
  beginTime : Option Nat
  span : Option Nat
deriving DecidableEq, Repr

/-- Embedding of `driver.Result` (LastInsertId / RowsAffected). -/
structure ExecResult where
  lastInsertId : Int
  rowsAffected : Int
deriving DecidableEq, Repr

/-- Opaque token for a native `driver.Rows` result set. -/
structure Rows where
  id : Nat
deriving DecidableEq, Repr

/-- Embedding of `driver.TxOptions`. -/
structure TxOptions where
  isolation : Nat
  readOnly : Bool
deriving DecidableEq, Repr

/-- Hook call sites executed by the wrapper, in program order. `nativeCall` is
recorded exactly when the underlying native driver method actually runs. -/
inductive Event where
  | beforeCall (query : String) (args : List GoVal)
  | nativeCall
  | afterCall (query : String) (args : List GoVal)
  | onErrorCall (err : Err) (query : String) (args : List GoVal)
deriving DecidableEq, Repr

/-- The query text carried by a hook event (`none` for the native call). -/
def Event.hookQuery : Event → Option String
  | Event.beforeCall q _ => some q
  | Event.afterCall q _ => some q
  | Event.onErrorCall _ q _ => some q
  | Event.nativeCall => none

/-- The argument list carried by a hook event (`none` for the native call). -/
def Event.hookArgs : Event → Option (List GoVal)
  | Event.beforeCall _ a => some a
  | Event.afterCall _ a => some a
  | Event.onErrorCall _ _ a => some a
  | Event.nativeCall => none

/-- Embedding of `apm.Hooks` (sql_driver_wrapper.go lines 13-21):
Before / After return a derived context and an error, OnError returns an error. -/
structure Hooks where
  Before : Context → String → List GoVal → Context × Option Err
  After : Context → String → List GoVal → Context × Option Err
  OnError : Context → Err → String → List GoVal → Err

/-- A native `driver.Stmt` together with the optional interfaces it implements
(`driver.StmtExecContext`, `driver.StmtQueryContext`); `none` = not implemented. -/
structure NativeStmt where
  stmtExecContext : Option (Context → List NamedValue → Option ExecResult × Option Err)
  stmtQueryContext : Option (Context → List NamedValue → Option Rows × Option Err)

/-- A native `driver.Tx`, represented by the outcomes its Commit/Rollback
methods produce when called. -/
structure NativeTx where
  commitResult : Option Err
  rollbackResult : Option Err

/-- A native `driver.Conn` together with the optional interfaces it implements
(`driver.ExecerContext`, `driver.QueryerContext`, `driver.ConnPrepareContext`,
`driver.ConnBeginTx`); `none` = not implemented. -/
structure NativeConn where
  execerContext : Option (Context → String → List NamedValue → Option ExecResult × Option Err)
  queryerContext : Option (Context → String → List NamedValue → Option Rows × Option Err)
  connPrepareContext : Option (Context → String → Except Err NativeStmt)
  connBeginTx : Option (Context → TxOptions → Except Err NativeTx)

/-- Embedding of `apm.Conn` (sql_driver_wrapper.go lines 56-59): a native
connection plus the shared hook set. -/
structure Conn where
  conn : NativeConn
  hooks : Hooks

/-- Embedding of `apm.Stmt` (sql_driver_wrapper.go lines 149-153): a native
statement, the shared hook set, and the query text captured at prepare time. -/
structure Stmt where
  stmt : NativeStmt
  hooks : Hooks
  query : String

/-- Embedding of `namedToAny` (sql_driver_wrapper.go lines 295-301): project
each `driver.NamedValue` to its `Value`, preserving length and order. -/
def namedToAny (args : List NamedValue) : List GoVal :=
  args.map NamedValue.value

/-- Embedding of the unexported `Conn.execContext` helper (lines 83-90): call
the native `ExecerContext` if implemented, else a capability error. The trace
records whether the native method ran. -/
def Conn.execContext (conn : Conn) (ctx : Context) (query : String) (args : List NamedValue) :
    (Option ExecResult × Option Err) × List Event :=
  match conn.conn.execerContext with
  | some f => (f ctx query args, [Event.nativeCall])
  | none => ((none, some (Err.capability "Conn does not implement driver.ExecerContext")), [])

/-- Embedding of `Conn.ExecContext` (lines 62-81): Before, then the delegated
native call, then After on success or OnError on failure. -/
def Conn.ExecContext (conn : Conn) (ctx : Context) (query : String) (args : List NamedValue) :
    (Option ExecResult × Option Err) × List Event :=
  let list := namedToAny args
  match conn.hooks.Before ctx query list with
  | (_, some err) => ((none, some err), [Event.beforeCall query list])
  | (ctx1, none) =>
    match conn.execContext ctx1 query args with
    | ((results, some err), tr) =>
        ((results, some (conn.hooks.OnError ctx1 err query list)),
          Event.beforeCall query list :: (tr ++ [Event.onErrorCall err query list]))
    | ((results, none), tr) =>
        ((results, (conn.hooks.After ctx1 query list).2),
          Event.beforeCall query list :: (tr ++ [Event.afterCall query list]))

/-- Embedding of the unexported `Conn.queryContext` helper (lines 114-121). -/
def Conn.queryContext (conn : Conn) (ctx : Context) (query : String) (args : List NamedValue) :
    (Option Rows × Option Err) × List Event :=
  match conn.conn.queryerContext with
  | some f => (f ctx query args, [Event.nativeCall])
  | none => ((none, some (Err.capability "Conn does not implement driver.QueryerContext")), [])

/-- Embedding of `Conn.QueryContext` (lines 93-112). -/
def Conn.QueryContext (conn : Conn) (ctx : Context) (query : String) (args : List NamedValue) :
    (Option Rows × Option Err) × List Event :=
  let list := namedToAny args
  match conn.hooks.Before ctx query list with
  | (_, some err) => ((none, some err), [Event.beforeCall query list])
  | (ctx1, none) =>
    match conn.queryContext ctx1 query args with
    | ((rows, some err), tr) =>
        ((rows, some (conn.hooks.OnError ctx1 err query list)),
          Event.beforeCall query list :: (tr ++ [Event.onErrorCall err query list]))
    | ((rows, none), tr) =>
        ((rows, (conn.hooks.After ctx1 query list).2),
          Event.beforeCall query list :: (tr ++ [Event.afterCall query list]))

/-- Embedding of `Conn.PrepareContext` (lines 126-142): requires the native
`ConnPrepareContext` capability; on success wraps the native statement together
with the query text used to prepare it and the shared hooks. -/
def Conn.PrepareContext (conn : Conn) (ctx : Context) (query : String) : Except Err Stmt :=
  match conn.conn.connPrepareContext with
  | some f =>
    match f ctx query with
    | Except.ok stmt => Except.ok ⟨stmt, conn.hooks, query⟩
    | Except.error err => Except.error err
  | none => Except.error (Err.capability "Conn does not implement driver.ConnPrepareContext")

/-- Embedding of the unexported `Stmt.execContext` helper (lines 182-189). -/
def Stmt.execContext (s : Stmt) (ctx : Context) (args : List NamedValue) :
    (Option ExecResult × Option Err) × List Event :=
  match s.stmt.stmtExecContext with
  | some f => (f ctx args, [Event.nativeCall])
  | none => ((none, some (Err.capability "Stmt does not implement driver.StmtExecContext")), [])

/-- Embedding of `Stmt.ExecContext` (lines 161-180): same cycle as the
connection, keyed by the query text captured at prepare time (`s.query`). -/
def Stmt.ExecContext (s : Stmt) (ctx : Context) (args : List NamedValue) :
    (Option ExecResult × Option Err) × List Event :=
  let list := namedToAny args
  match s.hooks.Before ctx s.query list with
  | (_, some err) => ((none, some err), [Event.beforeCall s.query list])
  | (ctx1, none) =>
    match s.execContext ctx1 args with
    | ((results, some err), tr) =>
        ((results, some (s.hooks.OnError ctx1 err s.query list)),
          Event.beforeCall s.query list :: (tr ++ [Event.onErrorCall err s.query list]))
    | ((results, none), tr) =>
        ((results, (s.hooks.After ctx1 s.query list).2),
          Event.beforeCall s.query list :: (tr ++ [Event.afterCall s.query list]))

/-- Embedding of the unexported `Stmt.queryContext` helper (lines 217-224). -/
def Stmt.queryContext (s : Stmt) (ctx : Context) (args : List NamedValue) :
    (Option Rows × Option Err) × List Event :=
  match s.stmt.stmtQueryContext with
  | some f => (f ctx args, [Event.nativeCall])
  | none => ((none, some (Err.capability "Stmt does not implement driver.StmtQueryContext")), [])

/-- Embedding of `Stmt.QueryContext` (lines 197-215). -/
def Stmt.QueryContext (s : Stmt) (ctx : Context) (args : List NamedValue) :
    (Option Rows × Option Err) × List Event :=
  let list := namedToAny args
  match s.hooks.Before ctx s.query list with
  | (_, some err) => ((none, some err), [Event.beforeCall s.query list])
  | (ctx1, none) =>
    match s.queryContext ctx1 args with
    | ((rows, some err), tr) =>
        ((rows, some (s.hooks.OnError ctx1 err s.query list)),
          Event.beforeCall s.query list :: (tr ++ [Event.onErrorCall err s.query list]))
    | ((rows, none), tr) =>
        ((rows, (s.hooks.After ctx1 s.query list).2),
          Event.beforeCall s.query list :: (tr ++ [Event.afterCall s.query list]))

/-- An OpenTelemetry span attribute value (bool / int64 / string); string
attribute values are byte strings, matching Go's byte-based `len`/slicing. -/
inductive AttrVal where
  | boolV (b : Bool)
  | intV (n : Int)
  | strV (s : List UInt8)
deriving DecidableEq, Repr

/-- A key/value span attribute as passed to `span.SetAttributes`. -/
structure SpanAttr where
  key : String
  val : AttrVal
deriving DecidableEq, Repr

/-- Embedding of `apm.DriverTx` (sql_driver_wrapper.go lines 230-235): the
native transaction, the start time set at `BeginTx`, the originating context,
and the long-transaction threshold captured at construction. -/
structure DriverTx where
  tx : NativeTx
  start : Nat
  ctx : Context
  longTxThreshold : Nat

/-- Embedding of the unexported `Conn.beginTx` helper (lines 258-265). -/
def Conn.beginTx (conn : Conn) (ctx : Context) (opts : TxOptions) : Except Err NativeTx :=
  match conn.conn.connBeginTx with
  | some f => f ctx opts
  | none => Except.error (Err.capability "Conn does not implement driver.ConnBeginTx")

/-- Embedding of `Conn.BeginTx` (lines 249-256). `now` is the value of
`time.Now()` and `longTxThreshold` the current value of the settable
process-wide `longTxThreshold` variable (default 3s) at call time. -/
def Conn.BeginTx (conn : Conn) (ctx : Context) (opts : TxOptions) (now : Nat)
    (longTxThreshold : Nat) : Except Err DriverTx :=
  match conn.beginTx ctx opts with
  | Except.error err => Except.error err
  | Except.ok tx => Except.ok ⟨tx, now, ctx, longTxThreshold⟩

/-- Embedding of `DriverTx.Commit` (lines 267-279): delegate first, then if the
elapsed time reaches the threshold, set the `longtx` / `tx_duration_ms`
attributes on the span taken from the stored context (`trace.SpanFromContext`
never returns a nil span, so the attributes are always recorded in that case);
the delegate's error is returned unchanged. The second component is the list of
attributes set. -/
def DriverTx.Commit (dt : DriverTx) (now : Nat) : Option Err × List SpanAttr :=
  let err := dt.tx.commitResult
  let elapsed := now - dt.start
  if elapsed ≥ dt.longTxThreshold then
    (err, [⟨"longtx", AttrVal.boolV true⟩,
           ⟨"tx_duration_ms", AttrVal.intV (Int.ofNat (elapsed / 1000000))⟩])
  else
    (err, [])

/-- Embedding of `DriverTx.Rollback` (lines 281-293), identical to Commit but
delegating to the native Rollback. -/
def DriverTx.Rollback (dt : DriverTx) (now : Nat) : Option Err × List SpanAttr :=
  let err := dt.tx.rollbackResult
  let elapsed := now - dt.start
  if elapsed ≥ dt.longTxThreshold then
    (err, [⟨"longtx", AttrVal.boolV true⟩,
           ⟨"tx_duration_ms", AttrVal.intV (Int.ofNat (elapsed / 1000000))⟩])
  else
    (err, [])

/-- Embedding of `truncate` (mysql wrapper file, lines 128-134): byte strings
longer than `maxLength` bytes are cut to their first `maxLength` bytes. -/
def maxLength : Nat := 1024

/-- Embedding of `truncate` itself. -/
def truncate (query : List UInt8) : List UInt8 :=
  if query.length > maxLength then query.take maxLength else query

/-- Span attributes set by the MySQL `Before` hook (mysql wrapper file, lines
70-75): the business name, the truncated query text and the truncated argument
dump (`argsDump` is the `sliceToString(args)` formatting of the argument list,
whose exact rendering is not modelled). -/
def wrapBeforeSpanAttrs (name query argsDump : List UInt8) : List SpanAttr :=
  [⟨"mysql.name", AttrVal.strV name⟩,
   ⟨"sql", AttrVal.strV (truncate query)⟩,
   ⟨"args", AttrVal.strV (truncate argsDump)⟩]

/-- Embedding of the MySQL `OnError` hook (mysql wrapper file, lines 113-124):
returns the error it was given together with the attributes it sets on the
active span — `error=true` for a genuine failure (where it also records the
error on the span), `drop=true` for the `driver.ErrSkip` sentinel. -/
def wrapOnError (err : Err) : Err × List SpanAttr :=
  if !(errorsIs err Err.skip) then
    (err, [⟨"error", AttrVal.boolV true⟩])
  else
    (err, [⟨"drop", AttrVal.boolV true⟩])

/-- The control-flow part of the MySQL `OnError` hook in the `Hooks` signature:
it returns exactly what `wrapOnError` returns (the span tagging is a side
effect on the span, modelled separately by `wrapOnError`'s second component). -/
def mysqlOnErrorHook : Context → Err → String → List GoVal → Err :=
  fun _ err _ _ => (wrapOnError err).1

/-- Label constant `goapm.LibraryTypeMySQL` (goapm/metric.go line 17). -/
def LibraryTypeMySQL : String := "mysql"

/-- The statement kinds distinguished by `parseTable`; stands for the
`sqlparser` package's statement-type constants (`sqlparser.INSERT` etc.),
with `unknown` for the zero value it returns in the other cases. -/
inductive SqlOp where
  | unknown
  | insert
  | update
  | delete
  | select
deriving DecidableEq, Repr

/-- The four-tuple returned by `sqlParser.parseTable`:
`(tableName, queryType, multiTable, err)`. -/
structure ParseTableResult where
  tableName : String
  queryType : SqlOp
  multiTable : Bool
  err : Option Err
deriving DecidableEq, Repr

/-- Abstraction of the external `sqlparser` library's output for the statement
shapes `parseTable` inspects: the statement kind plus its table expressions
(a first table and the remaining ones — the parser never yields an empty
table-expression list for these statements). `otherStmt` covers every
statement kind outside the four supported ones. -/
inductive SqlAst where
  | insertStmt (table : String)
  | deleteStmt (table : String) (moreTables : List String)
  | updateStmt (table : String) (moreTables : List String)
  | selectStmt (table : String) (moreTables : List String)
  | otherStmt
deriving DecidableEq, Repr

/-- Embedding of `sqlParser.parseTable` (sql_driver_wrapper.go lines 317-352)
over the abstracted library output `parsed` (`Except.error` = the library's
parse error; `CompliantName` normalization is treated as the identity, being
library-internal): parse errors and unsupported statement kinds yield an
error, more than one table expression yields `multiTable = true`, and a
single-table insert/delete/update/select yields its table and kind. -/
def parseTable (parsed : Except String SqlAst) (sql : String) : ParseTableResult :=
  match parsed with
  | Except.error msg =>
      ⟨"", SqlOp.unknown, false, some (Err.other ("parse sql error: " ++ msg ++ ", sql: " ++ sql))⟩
  | Except.ok (SqlAst.insertStmt t) => ⟨t, SqlOp.insert, false, none⟩
  | Except.ok (SqlAst.deleteStmt t more) =>
      if more.length > 0 then ⟨"", SqlOp.unknown, true, none⟩
      else ⟨t, SqlOp.delete, false, none⟩
  | Except.ok (SqlAst.updateStmt t more) =>
      if more.length > 0 then ⟨"", SqlOp.unknown, true, none⟩
      else ⟨t, SqlOp.update, false, none⟩
  | Except.ok (SqlAst.selectStmt t more) =>
      if more.length > 0 then ⟨"", SqlOp.unknown, true, none⟩
      else ⟨t, SqlOp.select, false, none⟩
  | Except.ok SqlAst.otherStmt =>
      ⟨"", SqlOp.unknown, false, some (Err.other ("unsupported sql type, sql: " ++ sql))⟩

/-- A table-labeled counter increment as performed by the MySQL `After` hook
(labels: library type, statement type, table; the `dbname.addr` label is fixed
per driver and omitted). -/
structure MetricInc where
  libraryType : String
  op : SqlOp
  table : String
deriving DecidableEq, Repr

/-- The metric-increment decision of the MySQL `After` hook (mysql wrapper
file, lines 82-85): the table-labeled counter is incremented exactly when
`parseTable` reported neither a multi-table statement nor an error. -/
def wrapAfterMetricInc (parsed : ParseTableResult) : Option MetricInc :=
  if !parsed.multiTable && parsed.err == none then
    some ⟨LibraryTypeMySQL, parsed.queryType, parsed.tableName⟩
  else
    none

/-- Embedding of the driver-name generation in `NewMySQL` (mysql wrapper file,
line 44) and `newGormDialector` (apm/gorm.go line 33):
`fmt.Sprintf("%s-%s", "mysql-wrapper", uuid.NewString())`. The freshly drawn
uuid string is passed in explicitly. -/
def mysqlDriverNameFor (uuid : String) : String :=
  "mysql-wrapper" ++ "-" ++ uuid

/-- Modelled from the claim text, for refinement comparison only: a
registration name consisting of the business name plus the random suffix. -/
def claimedDriverNameFor (businessName uuid : String) : String :=
  businessName ++ "-" ++ uuid

/-- The process-wide driver-registry interactions `NewMySQL` performs. -/
inductive RegistryAction where
  | registerDriver (driverName : String)
  | openDB (driverName : String)
deriving DecidableEq, Repr

/-- Embedding of the registry interactions of `NewMySQL` (mysql wrapper file,
lines 43-47), in program order: `sql.Register(driverName, ...)` then
`sql.Open(driverName, ...)`. -/
def newMySQLRegistryActions (uuid : String) : List RegistryAction :=
  [RegistryAction.registerDriver (mysqlDriverNameFor uuid),
   RegistryAction.openDB (mysqlDriverNameFor uuid)]

/-- Embedding of `gormDialector` (apm/gorm.go lines 26-30), restricted to the
fields the claims touch. -/
structure GormDialector where
  connectURL : String
  driverName : String
deriving DecidableEq, Repr

/-- Embedding of `newGormDialector` (apm/gorm.go lines 32-40): registers the
wrapped driver under the generated name and stores that name. -/
def newGormDialector (uuid : String) (connectURL : String) : GormDialector :=
  ⟨connectURL, mysqlDriverNameFor uuid⟩

/-- Embedding of `gormDialector.Name` (apm/gorm.go lines 42-44). -/
def GormDialector.Name (d : GormDialector) : String :=
  d.driverName

/-! Demo instances used to instantiate the theorems below on concrete inputs. -/

/-- An empty context. -/
def ctx0 : Context := ⟨none, none⟩

/-- Hooks that succeed and pass errors through unchanged. -/
def passHooks : Hooks :=
  ⟨fun ctx _ _ => (ctx, none), fun ctx _ _ => (ctx, none), fun _ err _ _ => err⟩

/-- A native ExecerContext implementation that succeeds. -/
def okExecFn : Context → String → List NamedValue → Option ExecResult × Option Err :=
  fun _ _ _ => (some ⟨0, 1⟩, none)

/-- A native QueryerContext implementation that fails. -/
def failRowsFn : Context → String → List NamedValue → Option Rows × Option Err :=
  fun _ _ _ => (none, some (Err.other "boom"))

/-- A native statement whose exec succeeds and whose query reports `ErrSkip`. -/
def demoNativeStmt : NativeStmt :=
  ⟨some (fun _ _ => (some ⟨0, 1⟩, none)), some (fun _ _ => (none, some Err.skip))⟩

/-- A native connection implementing all four optional interfaces. -/
def demoNativeConn : NativeConn :=
  ⟨some okExecFn, some failRowsFn, some (fun _ _ => Except.ok demoNativeStmt),
   some (fun _ _ => Except.ok ⟨none, some (Err.other "rollback failed")⟩)⟩

/-- A wrapped connection over `demoNativeConn` with pass-through hooks. -/
def demoConn : Conn := ⟨demoNativeConn, passHooks⟩

/-- C1: for every ExecContext/QueryContext call on a wrapped Connection or
wrapped Statement in which Before returns a nil error and the native
connection/statement implements the delegated capability, the phases occur in
the order Before, native call, terminal hook, and exactly one terminal hook
fires: After exactly when the delegated native call succeeds, OnError exactly
when it fails — the full event trace is the corresponding three-element list,
so neither zero nor two terminal hooks can occur. -/
theorem hook_lifecycle_exactly_one_terminal :
    (∀ (conn : Conn) (ctx ctx1 : Context) (query : String) (args : List NamedValue) f res,
      conn.hooks.Before ctx query (namedToAny args) = (ctx1, none) →
      conn.conn.execerContext = some f →
      f ctx1 query args = (res, none) →
      (Conn.ExecContext conn ctx query args).2 =
        [Event.beforeCall query (namedToAny args), Event.nativeCall,
         Event.afterCall query (namedToAny args)]) ∧
    (∀ (conn : Conn) (ctx ctx1 : Context) (query : String) (args : List NamedValue) f res e,
      conn.hooks.Before ctx query (namedToAny args) = (ctx1, none) →
      conn.conn.execerContext = some f →
      f ctx1 query args = (res, some e) →
      (Conn.ExecContext conn ctx query args).2 =
        [Event.beforeCall query (namedToAny args), Event.nativeCall,
         Event.onErrorCall e query (namedToAny args)]) ∧
    (∀ (conn : Conn) (ctx ctx1 : Context) (query : String) (args : List NamedValue) f res,
      conn.hooks.Before ctx query (namedToAny args) = (ctx1, none) →
      conn.conn.queryerContext = some f →
      f ctx1 query args = (res, none) →
      (Conn.QueryContext conn ctx query args).2 =
        [Event.beforeCall query (namedToAny args), Event.nativeCall,
         Event.afterCall query (namedToAny args)]) ∧
    (∀ (conn : Conn) (ctx ctx1 : Context) (query : String) (args : List NamedValue) f res e,
      conn.hooks.Before ctx query (namedToAny args) = (ctx1, none) →
      conn.conn.queryerContext = some f →
      f ctx1 query args = (res, some e) →
      (Conn.QueryContext conn ctx query args).2 =
        [Event.beforeCall query (namedToAny args), Event.nativeCall,
         Event.onErrorCall e query (namedToAny args)]) ∧
    (∀ (s : Stmt) (ctx ctx1 : Context) (args : List NamedValue) f res,
      s.hooks.Before ctx s.query (namedToAny args) = (ctx1, none) →
      s.stmt.stmtExecContext = some f →
      f ctx1 args = (res, none) →
      (Stmt.ExecContext s ctx args).2 =
        [Event.beforeCall s.query (namedToAny args), Event.nativeCall,
         Event.afterCall s.query (namedToAny args)]) ∧
    (∀ (s : Stmt) (ctx ctx1 : Context) (args : List NamedValue) f res e,
      s.hooks.Before ctx s.query (namedToAny args) = (ctx1, none) →
      s.stmt.stmtExecContext = some f →
      f ctx1 args = (res, some e) →
      (Stmt.ExecContext s ctx args).2 =
        [Event.beforeCall s.query (namedToAny args), Event.nativeCall,
         Event.onErrorCall e s.query (namedToAny args)]) ∧
    (∀ (s : Stmt) (ctx ctx1 : Context) (args : List NamedValue) f res,
      s.hooks.Before ctx s.query (namedToAny args) = (ctx1, none) →
      s.stmt.stmtQueryContext = some f →
      f ctx1 args = (res, none) →
      (Stmt.QueryContext s ctx args).2 =
        [Event.beforeCall s.query (namedToAny args), Event.nativeCall,
         Event.afterCall s.query (namedToAny args)]) ∧
    (∀ (s : Stmt) (ctx ctx1 : Context) (args : List NamedValue) f res e,
      s.hooks.Before ctx s.query (namedToAny args) = (ctx1, none) →
      s.stmt.stmtQueryContext = some f →
      f ctx1 args = (res, some e) →
      (Stmt.QueryContext s ctx args).2 =
        [Event.beforeCall s.query (namedToAny args), Event.nativeCall,
         Event.onErrorCall e s.query (namedToAny args)]) := by
  refine ⟨?_, ?_, ?_, ?_, ?_, ?_, ?_, ?_⟩
  · intro conn ctx ctx1 query args f res hB hf hN
    simp [Conn.ExecContext, Conn.execContext, hB, hf, hN]
  · intro conn ctx ctx1 query args f res e hB hf hN
    simp [Conn.ExecContext, Conn.execContext, hB, hf, hN]
  · intro conn ctx ctx1 query args f res hB hf hN
    simp [Conn.QueryContext, Conn.queryContext, hB, hf, hN]
  · intro conn ctx ctx1 query args f res e hB hf hN
    simp [Conn.QueryContext, Conn.queryContext, hB, hf, hN]
  · intro s ctx ctx1 args f res hB hf hN
    simp [Stmt.ExecContext, Stmt.execContext, hB, hf, hN]
  · intro s ctx ctx1 args f res e hB hf hN
    simp [Stmt.ExecContext, Stmt.execContext, hB, hf, hN]
  · intro s ctx ctx1 args f res hB hf hN
    simp [Stmt.QueryContext, Stmt.queryContext, hB, hf, hN]
  · intro s ctx ctx1 args f res e hB hf hN
    simp [Stmt.QueryContext, Stmt.queryContext, hB, hf, hN]

/-- C1 witness: the lifecycle theorem applied to a concrete wrapped connection,
on a succeeding exec (terminal hook After) and a failing query (terminal hook
OnError). -/
theorem hook_lifecycle_exactly_one_terminal_witness :
    (Conn.ExecContext demoConn ctx0 "UPDATE t SET k = 1" []).2 =
      [Event.beforeCall "UPDATE t SET k = 1" [], Event.nativeCall,
       Event.afterCall "UPDATE t SET k = 1" []] ∧
    (Conn.QueryContext demoConn ctx0 "SELECT 1" []).2 =
      [Event.beforeCall "SELECT 1" [], Event.nativeCall,
       Event.onErrorCall (Err.other "boom") "SELECT 1" []] :=
  ⟨hook_lifecycle_exactly_one_terminal.1 demoConn ctx0 ctx0 "UPDATE t SET k = 1" []
      okExecFn (some ⟨0, 1⟩) rfl rfl rfl,
   hook_lifecycle_exactly_one_terminal.2.2.2.1 demoConn ctx0 ctx0 "SELECT 1" []
      failRowsFn none (Err.other "boom") rfl rfl rfl⟩

/-- C4: if Before returns a non-nil error the native call is not executed (no
native event, and the full return value is the nil result with Before's error
unmodified); if After returns a non-nil error following a successful native
call, that error is returned directly with the native result, unwrapped.
Stated for ExecContext on both the wrapped Connection and wrapped Statement. -/
theorem hook_error_aborts_operation :
    (∀ (conn : Conn) (ctx ctx1 : Context) (query : String) (args : List NamedValue) e,
      conn.hooks.Before ctx query (namedToAny args) = (ctx1, some e) →
      Conn.ExecContext conn ctx query args =
        ((none, some e), [Event.beforeCall query (namedToAny args)])) ∧
    (∀ (s : Stmt) (ctx ctx1 : Context) (args : List NamedValue) e,
      s.hooks.Before ctx s.query (namedToAny args) = (ctx1, some e) →
      Stmt.ExecContext s ctx args =
        ((none, some e), [Event.beforeCall s.query (namedToAny args)])) ∧
    (∀ (conn : Conn) (ctx ctx1 ctx2 : Context) (query : String) (args : List NamedValue) f res e,
      conn.hooks.Before ctx query (namedToAny args) = (ctx1, none) →
      conn.conn.execerContext = some f →
      f ctx1 query args = (res, none) →
      conn.hooks.After ctx1 query (namedToAny args) = (ctx2, some e) →
      Conn.ExecContext conn ctx query args =
        ((res, some e),
         [Event.beforeCall query (namedToAny args), Event.nativeCall,
          Event.afterCall query (namedToAny args)])) ∧
    (∀ (s : Stmt) (ctx ctx1 ctx2 : Context) (args : List NamedValue) f res e,
      s.hooks.Before ctx s.query (namedToAny args) = (ctx1, none) →
      s.stmt.stmtExecContext = some f →
      f ctx1 args = (res, none) →
      s.hooks.After ctx1 s.query (namedToAny args) = (ctx2, some e) →
      Stmt.ExecContext s ctx args =
        ((res, some e),
         [Event.beforeCall s.query (namedToAny args), Event.nativeCall,
          Event.afterCall s.query (namedToAny args)])) := by
  refine ⟨?_, ?_, ?_, ?_⟩
  · intro conn ctx ctx1 query args e hB
    simp [Conn.ExecContext, hB]
  · intro s ctx ctx1 args e hB
    simp [Stmt.ExecContext, hB]
  · intro conn ctx ctx1 ctx2 query args f res e hB hf hN hA
    simp [Conn.ExecContext, Conn.execContext, hB, hf, hN, hA]
  · intro s ctx ctx1 ctx2 args f res e hB hf hN hA
    simp [Stmt.ExecContext, Stmt.execContext, hB, hf, hN, hA]

/-- Hooks whose Before fails. -/
def beforeFailHooks : Hooks :=
  ⟨fun ctx _ _ => (ctx, some (Err.other "before failed")),
   fun ctx _ _ => (ctx, none), fun _ err _ _ => err⟩

/-- Hooks whose After fails. -/
def afterFailHooks : Hooks :=
  ⟨fun ctx _ _ => (ctx, none),
   fun ctx _ _ => (ctx, some (Err.other "after failed")), fun _ err _ _ => err⟩

/-- C4 witness: the abort theorem applied to concrete wrapped connections with
a failing Before hook and a failing After hook. -/
theorem hook_error_aborts_operation_witness :
    Conn.ExecContext ⟨demoNativeConn, beforeFailHooks⟩ ctx0 "UPDATE t SET k = 1" [] =
      ((none, some (Err.other "before failed")),
       [Event.beforeCall "UPDATE t SET k = 1" []]) ∧
    Conn.ExecContext ⟨demoNativeConn, afterFailHooks⟩ ctx0 "UPDATE t SET k = 1" [] =
      ((some ⟨0, 1⟩, some (Err.other "after failed")),
       [Event.beforeCall "UPDATE t SET k = 1" [], Event.nativeCall,
        Event.afterCall "UPDATE t SET k = 1" []]) :=
  ⟨hook_error_aborts_operation.1 ⟨demoNativeConn, beforeFailHooks⟩ ctx0 ctx0
      "UPDATE t SET k = 1" [] (Err.other "before failed") rfl,
   hook_error_aborts_operation.2.2.1 ⟨demoNativeConn, afterFailHooks⟩ ctx0 ctx0 ctx0
      "UPDATE t SET k = 1" [] okExecFn (some ⟨0, 1⟩) (Err.other "after failed") rfl rfl rfl rfl⟩

/-- A native connection implementing none of the optional interfaces. -/
def noCapNativeConn : NativeConn := ⟨none, none, none, none⟩

/-- A wrapped connection over `noCapNativeConn` with pass-through hooks. -/
def noCapConn : Conn := ⟨noCapNativeConn, passHooks⟩

/-- C2 counterexample: on a wrapped connection whose native connection does not
implement `driver.QueryerContext`, `QueryContext` does produce the descriptive
capability error, but hooks do fire for that call — the event trace is not
empty: Before fires and then OnError fires with the capability error,
contradicting the claim that none of Before/After/OnError is invoked. -/
theorem queryContext_capability_hooks_fire_cex :
    (Conn.QueryContext noCapConn ctx0 "SELECT 1" []).2 ≠ [] ∧
    Conn.QueryContext noCapConn ctx0 "SELECT 1" [] =
      ((none, some (Err.capability "Conn does not implement driver.QueryerContext")),
       [Event.beforeCall "SELECT 1" [],
        Event.onErrorCall (Err.capability "Conn does not implement driver.QueryerContext")
          "SELECT 1" []]) := by
  constructor
  · decide
  · rfl

/-- C2 amended: if the native connection does not implement
`driver.QueryerContext`, then `QueryContext` on the wrapped connection fails
without ever invoking the native call, returning a nil row set and the
descriptive capability error as processed by the OnError hook; the Before hook
fires first and, when it succeeds, the OnError hook fires with the capability
error — the After hook never fires. -/
theorem queryContext_capability_error :
    ∀ (conn : Conn) (ctx ctx1 : Context) (query : String) (args : List NamedValue),
      conn.conn.queryerContext = none →
      conn.hooks.Before ctx query (namedToAny args) = (ctx1, none) →
      Conn.QueryContext conn ctx query args =
        ((none,
          some (conn.hooks.OnError ctx1
            (Err.capability "Conn does not implement driver.QueryerContext")
            query (namedToAny args))),
         [Event.beforeCall query (namedToAny args),
          Event.onErrorCall (Err.capability "Conn does not implement driver.QueryerContext")
            query (namedToAny args)]) := by
  intro conn ctx ctx1 query args hq hB
  simp [Conn.QueryContext, Conn.queryContext, hq, hB]

/-- C2 witness: the amended capability theorem applied to the concrete
capability-free wrapped connection. -/
theorem queryContext_capability_error_witness :
    Conn.QueryContext noCapConn ctx0 "SELECT 1" [] =
      ((none, some (passHooks.OnError ctx0
          (Err.capability "Conn does not implement driver.QueryerContext") "SELECT 1" [])),
       [Event.beforeCall "SELECT 1" [],
        Event.onErrorCall (Err.capability "Conn does not implement driver.QueryerContext")
          "SELECT 1" []]) :=
  queryContext_capability_error noCapConn ctx0 ctx0 "SELECT 1" [] rfl rfl

/-- A native connection whose exec fails with a genuine native error. -/
def failExecNativeConn : NativeConn :=
  ⟨some (fun _ _ _ => (none, some (Err.other "duplicate key"))), none, none, none⟩

/-- A wrapped connection with the concrete MySQL OnError hook and a failing
native exec. -/
def mysqlOnErrorConn : Conn :=
  ⟨failExecNativeConn,
   ⟨fun ctx _ _ => (ctx, none), fun ctx _ _ => (ctx, none), mysqlOnErrorHook⟩⟩

/-- C3: the MySQL OnError hook returns the original error unchanged in both
cases — for the `driver.ErrSkip` sentinel it tags the span `drop=true` and not
`error`, for every other error it tags the span `error=true` — and a wrapped
ExecContext whose OnError is that hook hands the caller exactly the error the
native driver produced. -/
theorem onError_returns_original_error :
    (∀ e, (wrapOnError e).1 = e) ∧
    ((wrapOnError Err.skip).2 = [⟨"drop", AttrVal.boolV true⟩] ∧
      SpanAttr.mk "error" (AttrVal.boolV true) ∉ (wrapOnError Err.skip).2) ∧
    (∀ e, e ≠ Err.skip → (wrapOnError e).2 = [⟨"error", AttrVal.boolV true⟩]) ∧
    (∀ (conn : Conn) (ctx ctx1 : Context) (query : String) (args : List NamedValue) f res e,
      conn.hooks.OnError = mysqlOnErrorHook →
      conn.hooks.Before ctx query (namedToAny args) = (ctx1, none) →
      conn.conn.execerContext = some f →
      f ctx1 query args = (res, some e) →
      (Conn.ExecContext conn ctx query args).1 = (res, some e)) := by
  refine ⟨?_, ⟨by decide, by decide⟩, ?_, ?_⟩
  · intro e
    unfold wrapOnError
    split <;> rfl
  · intro e he
    unfold wrapOnError errorsIs
    rw [if_pos]
    simp [he]
  · intro conn ctx ctx1 query args f res e hOE hB hf hN
    simp [Conn.ExecContext, Conn.execContext, hB, hf, hN, hOE, mysqlOnErrorHook]
    unfold wrapOnError
    split <;> rfl

/-- C3 witness: the pass-through theorem applied to a concrete wrapped
connection using the MySQL OnError hook on a concrete failing native exec, and
the tagging conjunct applied to a concrete non-skip error. -/
theorem onError_returns_original_error_witness :
    (Conn.ExecContext mysqlOnErrorConn ctx0 "INSERT INTO t (k) VALUES (?)"
        [⟨none, 1, GoVal.str "a"⟩]).1 = (none, some (Err.other "duplicate key")) ∧
    (wrapOnError (Err.other "duplicate key")).2 = [⟨"error", AttrVal.boolV true⟩] :=
  ⟨onError_returns_original_error.2.2.2 mysqlOnErrorConn ctx0 ctx0
      "INSERT INTO t (k) VALUES (?)" [⟨none, 1, GoVal.str "a"⟩]
      (fun _ _ _ => (none, some (Err.other "duplicate key"))) none
      (Err.other "duplicate key") rfl rfl rfl rfl,
   onError_returns_original_error.2.2.1 (Err.other "duplicate key") (by decide)⟩

/-- C5: on Commit and Rollback of a wrapped transaction, if the elapsed time
since BeginTx reaches the long-transaction threshold then exactly the
`longtx=true` and `tx_duration_ms` attributes are set on the span from the
stored context, regardless of the delegate's outcome; below the threshold no
attribute is set; in all cases the delegate's error is returned unchanged.
BeginTx stores the begin time, the ambient context and the current threshold. -/
theorem longtx_flagging :
    (∀ (dt : DriverTx) (now : Nat),
      dt.longTxThreshold ≤ now - dt.start →
      DriverTx.Commit dt now =
        (dt.tx.commitResult,
         [⟨"longtx", AttrVal.boolV true⟩,
          ⟨"tx_duration_ms", AttrVal.intV (Int.ofNat ((now - dt.start) / 1000000))⟩]) ∧
      DriverTx.Rollback dt now =
        (dt.tx.rollbackResult,
         [⟨"longtx", AttrVal.boolV true⟩,
          ⟨"tx_duration_ms", AttrVal.intV (Int.ofNat ((now - dt.start) / 1000000))⟩])) ∧
    (∀ (dt : DriverTx) (now : Nat),
      now - dt.start < dt.longTxThreshold →
      DriverTx.Commit dt now = (dt.tx.commitResult, []) ∧
      DriverTx.Rollback dt now = (dt.tx.rollbackResult, [])) ∧
    (∀ (dt : DriverTx) (now : Nat),
      (DriverTx.Commit dt now).1 = dt.tx.commitResult ∧
      (DriverTx.Rollback dt now).1 = dt.tx.rollbackResult) ∧
    (∀ (conn : Conn) (ctx : Context) (opts : TxOptions) (now thr : Nat) f tx,
      conn.conn.connBeginTx = some f →
      f ctx opts = Except.ok tx →
      Conn.BeginTx conn ctx opts now thr = Except.ok ⟨tx, now, ctx, thr⟩) := by
  refine ⟨?_, ?_, ?_, ?_⟩
  · intro dt now h
    constructor
    · unfold DriverTx.Commit
      rw [if_pos h]
    · unfold DriverTx.Rollback
      rw [if_pos h]
  · intro dt now h
    constructor
    · unfold DriverTx.Commit
      rw [if_neg (Nat.not_le.mpr h)]
    · unfold DriverTx.Rollback
      rw [if_neg (Nat.not_le.mpr h)]
  · intro dt now
    constructor
    · simp only [DriverTx.Commit]
      split <;> rfl
    · simp only [DriverTx.Rollback]
      split <;> rfl
  · intro conn ctx opts now thr f tx hf htx
    simp [Conn.BeginTx, Conn.beginTx, hf, htx]

/-- A native transaction whose Commit fails and whose Rollback succeeds. -/
def demoNativeTx : NativeTx := ⟨some (Err.other "commit failed"), none⟩

/-- A wrapped transaction started at time 0 with a 3-second threshold. -/
def demoTx : DriverTx := ⟨demoNativeTx, 0, ctx0, 3000000000⟩

/-- C5 witness: the flagging theorem applied to a concrete wrapped transaction,
committed after 5 seconds (flagged despite the commit failing) and rolled back
after 1 second (not flagged). -/
theorem longtx_flagging_witness :
    DriverTx.Commit demoTx 5000000000 =
      (some (Err.other "commit failed"),
       [⟨"longtx", AttrVal.boolV true⟩, ⟨"tx_duration_ms", AttrVal.intV 5000⟩]) ∧
    DriverTx.Rollback demoTx 1000000000 = (none, []) := by
  constructor
  · have h := (longtx_flagging.1 demoTx 5000000000 (by decide)).1
    simpa using h
  · exact (longtx_flagging.2.1 demoTx 1000000000 (by decide)).2

/-- Every hook event in a wrapped statement's ExecContext trace carries the
statement's stored query text, whatever the hooks and native statement do. -/
theorem stmtExec_trace_queries (s : Stmt) (ctx : Context) (args : List NamedValue) :
    ((Stmt.ExecContext s ctx args).2.filterMap Event.hookQuery).all
      (fun q => q == s.query) = true := by
  unfold Stmt.ExecContext Stmt.execContext
  rcases hB : s.hooks.Before ctx s.query (namedToAny args) with ⟨ctx1, berr⟩
  cases berr with
  | some e => simp [hB, Event.hookQuery]
  | none =>
    cases hf : s.stmt.stmtExecContext with
    | none => simp [hB, hf, Event.hookQuery]
    | some f =>
      rcases hN : f ctx1 args with ⟨res, errOpt⟩
      cases errOpt <;> simp [hB, hf, hN, Event.hookQuery]

/-- Every hook event in a wrapped statement's QueryContext trace carries the
statement's stored query text, whatever the hooks and native statement do. -/
theorem stmtQuery_trace_queries (s : Stmt) (ctx : Context) (args : List NamedValue) :
    ((Stmt.QueryContext s ctx args).2.filterMap Event.hookQuery).all
      (fun q => q == s.query) = true := by
  unfold Stmt.QueryContext Stmt.queryContext
  rcases hB : s.hooks.Before ctx s.query (namedToAny args) with ⟨ctx1, berr⟩
  cases berr with
  | some e => simp [hB, Event.hookQuery]
  | none =>
    cases hf : s.stmt.stmtQueryContext with
    | none => simp [hB, hf, Event.hookQuery]
    | some f =>
      rcases hN : f ctx1 args with ⟨res, errOpt⟩
      cases errOpt <;> simp [hB, hf, hN, Event.hookQuery]

/-- C6: a statement prepared through the wrapped connection stores exactly the
query text it was prepared with (and the connection's hook set), and every
subsequent ExecContext/QueryContext on it hands that same text to every hook
invocation (Before, After, OnError), for any context and any argument list. -/
theorem stmt_preserves_query_text :
    ∀ (conn : Conn) (ctx : Context) (query : String) (st : Stmt),
      Conn.PrepareContext conn ctx query = Except.ok st →
      st.query = query ∧ st.hooks = conn.hooks ∧
      (∀ (ctx2 : Context) (args : List NamedValue),
        ((Stmt.ExecContext st ctx2 args).2.filterMap Event.hookQuery).all
          (fun q => q == query) = true) ∧
      (∀ (ctx2 : Context) (args : List NamedValue),
        ((Stmt.QueryContext st ctx2 args).2.filterMap Event.hookQuery).all
          (fun q => q == query) = true) := by
  intro conn ctx query st hprep
  have hq : st.query = query ∧ st.hooks = conn.hooks := by
    unfold Conn.PrepareContext at hprep
    split at hprep
    · split at hprep
      · simp only [Except.ok.injEq] at hprep
        rw [← hprep]
        exact ⟨rfl, rfl⟩
      · exact absurd hprep (by simp)
    · exact absurd hprep (by simp)
  refine ⟨hq.1, hq.2, ?_, ?_⟩
  · intro ctx2 args
    have h := stmtExec_trace_queries st ctx2 args
    rwa [hq.1] at h
  · intro ctx2 args
    have h := stmtQuery_trace_queries st ctx2 args
    rwa [hq.1] at h

/-- C6 witness: preparing the claim's concrete insert statement through the
demo wrapped connection and executing it twice with argument lists `["a"]` and
`["b"]` — both calls report the prepare-time query text in every hook event. -/
theorem stmt_preserves_query_text_witness :
    (Stmt.mk demoNativeStmt passHooks "INSERT INTO t (k) VALUES (?)").query =
      "INSERT INTO t (k) VALUES (?)" ∧
    ((Stmt.ExecContext ⟨demoNativeStmt, passHooks, "INSERT INTO t (k) VALUES (?)"⟩ ctx0
        [⟨none, 1, GoVal.str "a"⟩]).2.filterMap Event.hookQuery).all
      (fun q => q == "INSERT INTO t (k) VALUES (?)") = true ∧
    ((Stmt.ExecContext ⟨demoNativeStmt, passHooks, "INSERT INTO t (k) VALUES (?)"⟩ ctx0
        [⟨none, 1, GoVal.str "b"⟩]).2.filterMap Event.hookQuery).all
      (fun q => q == "INSERT INTO t (k) VALUES (?)") = true :=
  ⟨(stmt_preserves_query_text demoConn ctx0 "INSERT INTO t (k) VALUES (?)"
      ⟨demoNativeStmt, passHooks, "INSERT INTO t (k) VALUES (?)"⟩ rfl).1,
   (stmt_preserves_query_text demoConn ctx0 "INSERT INTO t (k) VALUES (?)"
      ⟨demoNativeStmt, passHooks, "INSERT INTO t (k) VALUES (?)"⟩ rfl).2.2.1 ctx0
      [⟨none, 1, GoVal.str "a"⟩],
   (stmt_preserves_query_text demoConn ctx0 "INSERT INTO t (k) VALUES (?)"
      ⟨demoNativeStmt, passHooks, "INSERT INTO t (k) VALUES (?)"⟩ rfl).2.2.1 ctx0
      [⟨none, 1, GoVal.str "b"⟩]⟩

/-- String append is left-cancellative (helper for driver-name uniqueness). -/
theorem string_append_left_cancel {s t1 t2 : String} (h : s ++ t1 = s ++ t2) : t1 = t2 := by
  cases s with
  | mk d =>
    cases t1 with
    | mk d1 =>
      cases t2 with
      | mk d2 =>
        have h2 : d ++ d1 = d ++ d2 := congrArg String.data h
        exact congrArg String.mk (List.append_cancel_left h2)

/-- C7 counterexample: the registration name generated for business name
`"orders"` with uuid `"u1"` is `"mysql-wrapper-u1"`, not the
`businessName-suffix` form the claim describes — the business name does not
appear in the registration key at all. -/
theorem driverName_not_business_name_cex :
    mysqlDriverNameFor "u1" ≠ claimedDriverNameFor "orders" "u1" ∧
    mysqlDriverNameFor "u1" = "mysql-wrapper-u1" := by
  constructor
  · decide
  · rfl

/-- C7 amended: each wrapper construction generates a registration name
consisting of the fixed prefix `"mysql-wrapper"` plus the fresh random uuid
suffix (the business name is not part of the key), registers the wrapped
driver under that name before opening the data-source handle, and two
constructions — with any business names — receive distinct registration keys
whenever their uuids are distinct; the gorm dialector stores the same
generated name. -/
theorem driverName_fixed_prefix_unique :
    (∀ uuid : String, mysqlDriverNameFor uuid = "mysql-wrapper" ++ "-" ++ uuid) ∧
    (∀ u1 u2 : String, u1 ≠ u2 → mysqlDriverNameFor u1 ≠ mysqlDriverNameFor u2) ∧
    (∀ uuid : String, newMySQLRegistryActions uuid =
      [RegistryAction.registerDriver (mysqlDriverNameFor uuid),
       RegistryAction.openDB (mysqlDriverNameFor uuid)]) ∧
    (∀ uuid connectURL : String,
      (newGormDialector uuid connectURL).driverName = mysqlDriverNameFor uuid ∧
      GormDialector.Name (newGormDialector uuid connectURL) = mysqlDriverNameFor uuid) := by
  refine ⟨fun _ => rfl, ?_, fun _ => rfl, fun _ _ => ⟨rfl, rfl⟩⟩
  intro u1 u2 hne heq
  unfold mysqlDriverNameFor at heq
  exact hne (string_append_left_cancel heq)

/-- C7 witness: two constructions with distinct uuids receive distinct keys. -/
theorem driverName_fixed_prefix_unique_witness :
    ("u1" : String) ≠ "u2" ∧ mysqlDriverNameFor "u1" ≠ mysqlDriverNameFor "u2" :=
  ⟨by decide, driverName_fixed_prefix_unique.2.1 "u1" "u2" (by decide)⟩

/-- C8: the table-labeled counter is incremented exactly when `parseTable`
reported a single-table statement with no error — equivalently, exactly when
the parsed statement is a single-table insert/delete/update/select; every
multi-table statement, parse failure and unsupported statement kind produces
no increment. -/
theorem table_metric_single_table_only :
    (∀ r : ParseTableResult,
      (wrapAfterMetricInc r).isSome = true ↔ (r.multiTable = false ∧ r.err = none)) ∧
    (∀ (parsed : Except String SqlAst) (sql : String),
      (wrapAfterMetricInc (parseTable parsed sql)).isSome = true ↔
        ((∃ t, parsed = Except.ok (SqlAst.insertStmt t)) ∨
         (∃ t, parsed = Except.ok (SqlAst.deleteStmt t [])) ∨
         (∃ t, parsed = Except.ok (SqlAst.updateStmt t [])) ∨
         (∃ t, parsed = Except.ok (SqlAst.selectStmt t [])))) := by
  constructor
  · intro r
    unfold wrapAfterMetricInc
    split <;> rename_i h <;> simp_all
  · intro parsed sql
    cases parsed with
    | error msg => simp [parseTable, wrapAfterMetricInc]
    | ok ast =>
      cases ast with
      | insertStmt t => simp [parseTable, wrapAfterMetricInc]
      | deleteStmt t more => cases more <;> simp [parseTable, wrapAfterMetricInc]
      | updateStmt t more => cases more <;> simp [parseTable, wrapAfterMetricInc]
      | selectStmt t more => cases more <;> simp [parseTable, wrapAfterMetricInc]
      | otherStmt => simp [parseTable, wrapAfterMetricInc]

/-- C9: `namedToAny` flattens a native argument list to a positional value
list of the same length whose i-th element is the i-th argument's value
(names and ordinals dropped, order preserved), and that flattened list is
exactly what every hook invocation of a wrapped ExecContext receives. -/
theorem namedToAny_flattens :
    (∀ args : List NamedValue, (namedToAny args).length = args.length) ∧
    (∀ (args : List NamedValue) (i : Nat),
      (namedToAny args)[i]? = (args[i]?).map NamedValue.value) ∧
    (∀ (conn : Conn) (ctx : Context) (query : String) (args : List NamedValue),
      (((Conn.ExecContext conn ctx query args).2.filterMap Event.hookArgs).all
        (fun l => l == namedToAny args)) = true) := by
  refine ⟨?_, ?_, ?_⟩
  · intro args
    simp [namedToAny]
  · intro args i
    simp [namedToAny, List.getElem?_map]
  · intro conn ctx query args
    unfold Conn.ExecContext Conn.execContext
    rcases hB : conn.hooks.Before ctx query (namedToAny args) with ⟨ctx1, berr⟩
    cases berr with
    | some e => simp [hB, Event.hookArgs]
    | none =>
      cases hf : conn.conn.execerContext with
      | none => simp [hB, hf, Event.hookArgs]
      | some f =>
        rcases hN : f ctx1 query args with ⟨res, errOpt⟩
        cases errOpt <;> simp [hB, hf, hN, Event.hookArgs]

/-- C10: the query-text and argument-dump span attributes set by the MySQL
Before hook are length-capped at exactly `maxLength` = 1024 bytes — a byte
string of length at most 1024 is kept unchanged, a longer one is cut to
exactly its first 1024 bytes. -/
theorem before_span_attrs_truncated :
    (∀ s : List UInt8, s.length ≤ 1024 → truncate s = s) ∧
    (∀ s : List UInt8, 1024 < s.length →
      truncate s = s.take 1024 ∧ (truncate s).length = 1024) ∧
    (∀ name query argsDump : List UInt8,
      wrapBeforeSpanAttrs name query argsDump =
        [⟨"mysql.name", AttrVal.strV name⟩, ⟨"sql", AttrVal.strV (truncate query)⟩,
         ⟨"args", AttrVal.strV (truncate argsDump)⟩]) := by
  refine ⟨?_, ?_, fun _ _ _ => rfl⟩
  · intro s h
    unfold truncate maxLength
    rw [if_neg (by omega)]
  · intro s h
    have ht : truncate s = s.take 1024 := by
      unfold truncate maxLength
      rw [if_pos (by omega)]
    refine ⟨ht, ?_⟩
    rw [ht, List.length_take]
    exact Nat.min_eq_left (Nat.le_of_lt h)

/-- C10 witness: the truncation theorem applied to a concrete 3-byte string
(kept unchanged) and a concrete 1025-byte string (cut to its first 1024
bytes, of length exactly 1024). -/
theorem before_span_attrs_truncated_witness :
    (List.replicate 3 (65 : UInt8)).length ≤ 1024 ∧
    truncate (List.replicate 3 (65 : UInt8)) = List.replicate 3 (65 : UInt8) ∧
    1024 < (List.replicate 1025 (65 : UInt8)).length ∧
    truncate (List.replicate 1025 (65 : UInt8)) =
      (List.replicate 1025 (65 : UInt8)).take 1024 ∧
    (truncate (List.replicate 1025 (65 : UInt8))).length = 1024 :=
  ⟨by rw [List.length_replicate]; decide,
   before_span_attrs_truncated.1 _ (by rw [List.length_replicate]; decide),
   by rw [List.length_replicate]; decide,
   (before_span_attrs_truncated.2.1 _ (by rw [List.length_replicate]; decide)).1,
   (before_span_attrs_truncated.2.1 _ (by rw [List.length_replicate]; decide)).2⟩
